import Mathlib

/-!
Verification of the RailViz railway-infrastructure builder and its
canonical-document encoder, against the code of the repository.

The embedding mirrors the Python sources:
* `railjson_generator/schema/infra/speed_section.py` — `SpeedSection`,
  its class-level label counter and its mutable default containers,
  modelled with an explicit process state (`PyState`) holding the
  class counter and a heap of list/dict cells, so that aliasing of
  mutable containers and the process-global counter are observable.
* `railjson_generator/schema/infra/make_geo_data.py` — `make_geo_line`,
  `make_geo_lines`.
* `osrd_schemas/infra_editor.py` — the signaling-system variants
  (`BalSystem`, `BaprSystem`, `Tvm300System`, `Tvm430System`,
  `EtcsLevel2System`) and the discriminated union
  `LimitedLogicalSignal`, with pydantic validation modelled as an
  explicit `Except`-returning validator over raw inputs.
* The topology assembler (`InfraBuilder`) and the document encoder are
  not part of the sources; they are modelled from the specification and
  marked as such.
-/

namespace RailViz

/-! ### Decimal printing of naturals

`_speed_section_id` builds the label with an f-string, i.e.
`"speed_section." ++ Nat.repr index`.  To prove auto-generated labels
pairwise distinct we show `Nat.repr` is injective, by exhibiting the
big-endian digit list produced by `Nat.toDigitsCore` and a decoder that
round-trips it. -/

/-- The big-endian decimal digit list of `n`, structurally defined. -/
def digitsOf (n : Nat) : List Char :=
  if _h : n < 10 then [Nat.digitChar n]
  else digitsOf (n / 10) ++ [Nat.digitChar (n % 10)]
  termination_by n
  decreasing_by
    exact Nat.div_lt_self (by omega) (by omega)

/-- Numeric value of a decimal digit character. -/
def digitVal (c : Char) : Nat := c.toNat - 48

/-- Big-endian decoder for digit lists. -/
def decodeDigits : List Char → Nat
  | [] => 0
  | c :: cs => digitVal c * 10 ^ cs.length + decodeDigits cs

theorem decodeDigits_append (xs ys : List Char) :
    decodeDigits (xs ++ ys) = decodeDigits xs * 10 ^ ys.length + decodeDigits ys := by
  induction xs with
  | nil => simp [decodeDigits]
  | cons c cs ih =>
    simp only [List.cons_append, decodeDigits, List.append_eq, ih, List.length_append]
    ring

theorem digitVal_digitChar {d : Nat} (h : d < 10) :
    digitVal (Nat.digitChar d) = d := by
  interval_cases d <;> rfl

theorem decodeDigits_digitsOf (n : Nat) : decodeDigits (digitsOf n) = n := by
  induction n using Nat.strong_induction_on with
  | _ n ih =>
    rw [digitsOf]
    by_cases h : n < 10
    · simp [h, decodeDigits, digitVal_digitChar h]
    · rw [dif_neg h, decodeDigits_append]
      have hrec : decodeDigits (digitsOf (n / 10)) = n / 10 :=
        ih (n / 10) (Nat.div_lt_self (by omega) (by omega))
      simp [decodeDigits, hrec, digitVal_digitChar (Nat.mod_lt n (by omega))]
      omega

theorem digitsOf_injective : Function.Injective digitsOf := by
  intro m n h
  have := decodeDigits_digitsOf m
  rw [h, decodeDigits_digitsOf] at this
  omega

theorem toDigitsCore_eq_digitsOf (fuel : Nat) :
    ∀ n ds, n < fuel → Nat.toDigitsCore 10 fuel n ds = digitsOf n ++ ds := by
  induction fuel with
  | zero => intro n ds h; omega
  | succ fuel ih =>
    intro n ds h
    rw [Nat.toDigitsCore]
    by_cases hz : n / 10 = 0
    · have hn : n < 10 := by omega
      rw [digitsOf, dif_pos hn]
      simp [hz, Nat.mod_eq_of_lt hn]
    · have hn : ¬ n < 10 := by
        intro hlt
        exact hz (Nat.div_eq_of_lt hlt)
      rw [if_neg hz, ih (n / 10) _ (by omega)]
      conv_rhs => rw [digitsOf]
      rw [dif_neg hn]
      simp

theorem repr_injective : Function.Injective Nat.repr := by
  intro m n h
  unfold Nat.repr Nat.toDigits at h
  rw [toDigitsCore_eq_digitsOf (m + 1) m [] (by omega),
    toDigitsCore_eq_digitsOf (n + 1) n [] (by omega)] at h
  simp only [List.append_nil] at h
  have hd : (digitsOf m).asString.data = (digitsOf n).asString.data := by rw [h]
  simp only [List.asString] at hd
  exact digitsOf_injective hd

theorem string_append_left_cancel {s a b : String} (h : s ++ a = s ++ b) : a = b := by
  have hd : (s ++ a).data = (s ++ b).data := by rw [h]
  have h2 : s.data ++ a.data = s.data ++ b.data := hd
  have h3 := List.append_cancel_left h2
  cases a; cases b; cases h3; rfl

/-! ### Data model shared by the embedded sources -/

/-- `ApplicableDirection` enum of the railjson generator. -/
inductive ApplicableDirection where
  | START_TO_STOP
  | STOP_TO_START
  | BOTH
deriving DecidableEq, Repr

/-- A track section: identifier plus length (spec: integer millimeters). -/
structure TrackSection where
  label : String
  length : Int
deriving DecidableEq, Repr

/-- `ApplicableDirectionsTrackRange` from `range_elements`: a directed
range of one track (field names from the source keywords). -/
structure ApplicableDirectionsTrackRange where
  «begin» : Int
  «end» : Int
  track : TrackSection
  applicable_directions : ApplicableDirection
deriving DecidableEq, Repr

/-! ### `speed_section.py`

The module's mutable state: the class attribute `SpeedSection._index`
and (to make Python reference semantics of the `default_factory`
containers observable) a heap of list cells and dict cells.  A
`SpeedSection` value stores cell references for its `track_ranges`
list and its `speed_limit_by_tag` dict, exactly as a Python object
stores references to its containers.  Python floats carry no arithmetic
in the claims and are embedded as rationals. -/
structure PyState where
  index : Nat
  listCells : List (List ApplicableDirectionsTrackRange)
  dictCells : List (List (String × Rat))
deriving Repr

/-- The initial interpreter state: counter 0, empty heap. -/
def PyState.init : PyState := ⟨0, [], []⟩

/-- Allocate a fresh list object holding `v`; returns its reference. -/
def PyState.allocList (st : PyState)
    (v : List ApplicableDirectionsTrackRange) : Nat × PyState :=
  (st.listCells.length, { st with listCells := st.listCells ++ [v] })

/-- Allocate a fresh dict object holding `v`; returns its reference. -/
def PyState.allocDict (st : PyState) (v : List (String × Rat)) : Nat × PyState :=
  (st.dictCells.length, { st with dictCells := st.dictCells ++ [v] })

/-- Dereference a list cell. -/
def PyState.listGet (st : PyState) (r : Nat) : List ApplicableDirectionsTrackRange :=
  st.listCells.getD r []

/-- Overwrite a list cell. -/
def PyState.listSet (st : PyState) (r : Nat)
    (v : List ApplicableDirectionsTrackRange) : PyState :=
  { st with listCells := st.listCells.set r v }

/-- Dereference a dict cell. -/
def PyState.dictGet (st : PyState) (r : Nat) : List (String × Rat) :=
  st.dictCells.getD r []

/-- `_speed_section_id()`: read the class counter into the label
`f"speed_section.{SpeedSection._index}"` and increment it. -/
def speed_section_id (st : PyState) : String × PyState :=
  ("speed_section." ++ Nat.repr st.index, { st with index := st.index + 1 })

/-- The `SpeedSection` dataclass.  `speed_limit_by_tag` and
`track_ranges` are references into the heap (Python containers);
`label` is a plain string. -/
structure SpeedSection where
  speed_limit : Rat
  speed_limit_by_tag : Nat
  track_ranges : Nat
  label : String
  on_routes : Option (List String)
deriving DecidableEq, Repr

/-- The dataclass constructor.  Omitted arguments take the declared
defaults, in field order: `speed_limit_by_tag` a freshly allocated
empty dict, `track_ranges` a freshly allocated empty list, `label`
drawn from the class-level counter via `_speed_section_id`. -/
def SpeedSection.make (st : PyState) (speed_limit : Rat)
    (tagArg : Option Nat) (rangesArg : Option Nat)
    (labelArg : Option String) (on_routes : Option (List String)) :
    SpeedSection × PyState :=
  let p1 := match tagArg with
    | some r => (r, st)
    | none => st.allocDict []
  let p2 := match rangesArg with
    | some r => (r, p1.2)
    | none => p1.2.allocList []
  let p3 := match labelArg with
    | some l => (l, p2.2)
    | none => speed_section_id p2.2
  ({ speed_limit := speed_limit, speed_limit_by_tag := p1.1,
     track_ranges := p2.1, label := p3.1, on_routes := on_routes }, p3.2)

/-- `SpeedSection.reset_index()`: set the class counter back to 0. -/
def SpeedSection.reset_index (st : PyState) : PyState := { st with index := 0 }

/-- `SpeedSection.add_track_range(track, begin, end, applicable_directions)`:
append a new `ApplicableDirectionsTrackRange` to `self.track_ranges`.
The source performs no validation of the bounds and cannot fail. -/
def SpeedSection.add_track_range (self : SpeedSection) (st : PyState)
    (track : TrackSection) (b e : Int) (dirs : ApplicableDirection) : PyState :=
  st.listSet self.track_ranges
    (st.listGet self.track_ranges ++
      [{ «begin» := b, «end» := e, track := track, applicable_directions := dirs }])

/-! ### `make_geo_data.py`

GeoJSON coordinates carry no arithmetic in the claims; the coordinate
type is kept abstract.  A Python `Mapping` is embedded as an
association list. -/

/-- A `geojson_pydantic` `LineString`: coordinates plus the literal
`type` field. -/
structure LineString (α : Type) where
  coordinates : List α
  type : String
deriving DecidableEq, Repr

/-- `make_geo_line(points)`. -/
def make_geo_line {α : Type} (points : List α) : LineString α :=
  { coordinates := points, type := "LineString" }

/-- `make_geo_lines(points)`: the one-entry mapping `{"geo": ...}`. -/
def make_geo_lines {α : Type} (points : List α) : List (String × LineString α) :=
  [("geo", make_geo_line points)]

/-! ### `infra_editor.py`: signaling-system variants -/

/-- The `SignalingSystem` enum. -/
inductive SignalingSystem where
  | bal
  | bapr
  | tvm300
  | tvm430
  | etcsLevel2
deriving DecidableEq, Repr

/-- The string value of each `SignalingSystem` member. -/
def SignalingSystem.value : SignalingSystem → String
  | .bal => "BAL"
  | .bapr => "BAPR"
  | .tvm300 => "TVM300"
  | .tvm430 => "TVM430"
  | .etcsLevel2 => "ETCS_LEVEL2"

/-- Enum validation: the inverse of `SignalingSystem.value`. -/
def SignalingSystem.ofString (s : String) : Option SignalingSystem :=
  if s = "BAL" then some .bal
  else if s = "BAPR" then some .bapr
  else if s = "TVM300" then some .tvm300
  else if s = "TVM430" then some .tvm430
  else if s = "ETCS_LEVEL2" then some .etcsLevel2
  else none

/-- The member values of `SignalingSystem`: the supported kinds. -/
def supportedSignalingSystems : List String :=
  ["BAL", "BAPR", "TVM300", "TVM430", "ETCS_LEVEL2"]

/-- The `FlagSignalParameter` enum (string values "true"/"false"). -/
inductive FlagSignalParameter where
  | true
  | false
deriving DecidableEq, Repr

/-- Enum validation for `FlagSignalParameter`. -/
def FlagSignalParameter.ofString (s : String) : Option FlagSignalParameter :=
  if s = "true" then some .true
  else if s = "false" then some .false
  else none

/-- `BalSystem.Settings`: the one required flag `Nf`. -/
structure BalSystem.Settings where
  Nf : FlagSignalParameter
deriving DecidableEq, Repr

/-- `BalSystem.Parameters`: the one required flag `jaune_cli`. -/
structure BalSystem.Parameters where
  jaune_cli : FlagSignalParameter
deriving DecidableEq, Repr

/-- `BalSystem.ConditionalParameters`. -/
structure BalSystem.ConditionalParameters where
  on_route : String
  parameters : BalSystem.Parameters
deriving DecidableEq, Repr

/-- `BalSystem`: field defaults as declared (`signaling_system`
defaults to the literal "BAL", the two list fields default to empty). -/
structure BalSystem where
  next_signaling_systems : List SignalingSystem := []
  signaling_system : String := "BAL"
  settings : BalSystem.Settings
  default_parameters : BalSystem.Parameters
  conditional_parameters : List BalSystem.ConditionalParameters := []
deriving DecidableEq, Repr

/-- `BaprSystem.Settings`: required flags `Nf` and `distant`. -/
structure BaprSystem.Settings where
  Nf : FlagSignalParameter
  distant : FlagSignalParameter
deriving DecidableEq, Repr

/-- `BaprSystem.Parameters`: an empty model. -/
structure BaprSystem.Parameters where
deriving DecidableEq, Repr

/-- `BaprSystem.ConditionalParameters`. -/
structure BaprSystem.ConditionalParameters where
  on_route : String
  parameters : BaprSystem.Parameters
deriving DecidableEq, Repr

/-- `BaprSystem`: note the default parameter set sits in a field named
`parameters`, unlike the four other variants. -/
structure BaprSystem where
  next_signaling_systems : List SignalingSystem := []
  signaling_system : String := "BAPR"
  settings : BaprSystem.Settings
  parameters : BaprSystem.Parameters
  conditional_parameters : List BaprSystem.ConditionalParameters := []
deriving DecidableEq, Repr

/-- `Tvm300System.Settings`: the one required flag `Nf`. -/
structure Tvm300System.Settings where
  Nf : FlagSignalParameter
deriving DecidableEq, Repr

/-- `Tvm300System.Parameters`: an empty model. -/
structure Tvm300System.Parameters where
deriving DecidableEq, Repr

/-- `Tvm300System.ConditionalParameters`. -/
structure Tvm300System.ConditionalParameters where
  on_route : String
  parameters : Tvm300System.Parameters
deriving DecidableEq, Repr

/-- `Tvm300System`. -/
structure Tvm300System where
  next_signaling_systems : List SignalingSystem := []
  signaling_system : String := "TVM300"
  settings : Tvm300System.Settings
  default_parameters : Tvm300System.Parameters
  conditional_parameters : List Tvm300System.ConditionalParameters := []
deriving DecidableEq, Repr

/-- `Tvm430System.Settings`: the one required flag `Nf`. -/
structure Tvm430System.Settings where
  Nf : FlagSignalParameter
deriving DecidableEq, Repr

/-- `Tvm430System.Parameters`: an empty model. -/
structure Tvm430System.Parameters where
deriving DecidableEq, Repr

/-- `Tvm430System.ConditionalParameters`. -/
structure Tvm430System.ConditionalParameters where
  on_route : String
  parameters : Tvm430System.Parameters
deriving DecidableEq, Repr

/-- `Tvm430System`. -/
structure Tvm430System where
  next_signaling_systems : List SignalingSystem := []
  signaling_system : String := "TVM430"
  settings : Tvm430System.Settings
  default_parameters : Tvm430System.Parameters
  conditional_parameters : List Tvm430System.ConditionalParameters := []
deriving DecidableEq, Repr

/-- `EtcsLevel2System.Settings`: the one required flag `Nf`. -/
structure EtcsLevel2System.Settings where
  Nf : FlagSignalParameter
deriving DecidableEq, Repr

/-- `EtcsLevel2System.Parameters`: an empty model. -/
structure EtcsLevel2System.Parameters where
deriving DecidableEq, Repr

/-- `EtcsLevel2System.ConditionalParameters`. -/
structure EtcsLevel2System.ConditionalParameters where
  on_route : String
  parameters : EtcsLevel2System.Parameters
deriving DecidableEq, Repr

/-- `EtcsLevel2System`. -/
structure EtcsLevel2System where
  next_signaling_systems : List SignalingSystem := []
  signaling_system : String := "ETCS_LEVEL2"
  settings : EtcsLevel2System.Settings
  default_parameters : EtcsLevel2System.Parameters
  conditional_parameters : List EtcsLevel2System.ConditionalParameters := []
deriving DecidableEq, Repr

/-- The declared field names of `BalSystem`, in declaration order
(including the one inherited from `BaseLogicalSignal`). -/
def BalSystem.fieldNames : List String :=
  ["next_signaling_systems", "signaling_system", "settings",
   "default_parameters", "conditional_parameters"]

/-- The declared field names of `BaprSystem`, in declaration order. -/
def BaprSystem.fieldNames : List String :=
  ["next_signaling_systems", "signaling_system", "settings",
   "parameters", "conditional_parameters"]

/-- The declared field names of `Tvm300System`, in declaration order. -/
def Tvm300System.fieldNames : List String :=
  ["next_signaling_systems", "signaling_system", "settings",
   "default_parameters", "conditional_parameters"]

/-- The declared field names of `Tvm430System`, in declaration order. -/
def Tvm430System.fieldNames : List String :=
  ["next_signaling_systems", "signaling_system", "settings",
   "default_parameters", "conditional_parameters"]

/-- The declared field names of `EtcsLevel2System`, in declaration order. -/
def EtcsLevel2System.fieldNames : List String :=
  ["next_signaling_systems", "signaling_system", "settings",
   "default_parameters", "conditional_parameters"]

/-- `LimitedLogicalSignal`: the closed tagged union over the five
supported variants. -/
inductive LimitedLogicalSignal where
  | bal : BalSystem → LimitedLogicalSignal
  | bapr : BaprSystem → LimitedLogicalSignal
  | tvm300 : Tvm300System → LimitedLogicalSignal
  | tvm430 : Tvm430System → LimitedLogicalSignal
  | etcsLevel2 : EtcsLevel2System → LimitedLogicalSignal
deriving DecidableEq, Repr

/-- The discriminator value carried by a constructed logical signal. -/
def LimitedLogicalSignal.signalingSystem : LimitedLogicalSignal → String
  | .bal s => s.signaling_system
  | .bapr s => s.signaling_system
  | .tvm300 s => s.signaling_system
  | .tvm430 s => s.signaling_system
  | .etcsLevel2 s => s.signaling_system

/-- Validation failures of the logical-signal schema. -/
inductive ValidationError where
  | missingDiscriminator
  | unknownVariant
  | invalidFields
deriving DecidableEq, Repr

/-- A raw (pre-validation) logical-signal input, as a JSON object:
optional discriminator, raw settings/parameter objects as association
lists, raw conditional entries as `(on_route, parameters)` pairs.
List fields absent from the input are already the empty defaults. -/
structure RawLogicalSignal where
  signaling_system : Option String
  next_signaling_systems : List String
  settings : List (String × String)
  default_parameters : Option (List (String × String))
  parameters : Option (List (String × String))
  conditional_parameters : List (String × List (String × String))
deriving DecidableEq, Repr

/-- Field lookup in a raw JSON object. -/
def lookupField (l : List (String × String)) (k : String) : Option String :=
  (l.find? (fun p => p.1 = k)).map (fun p => p.2)

/-- Parse a required `FlagSignalParameter` field of a raw object. -/
def parseFlagField (l : List (String × String)) (k : String) :
    Option FlagSignalParameter :=
  (lookupField l k).bind FlagSignalParameter.ofString

/-- Validate a list of `SignalingSystem` member values. -/
def parseSystems : List String → Option (List SignalingSystem)
  | [] => some []
  | s :: rest =>
    match SignalingSystem.ofString s, parseSystems rest with
    | some v, some vs => some (v :: vs)
    | _, _ => none

/-- Validate BAL conditional-parameter entries. -/
def parseBalConds : List (String × List (String × String)) →
    Option (List BalSystem.ConditionalParameters)
  | [] => some []
  | (r, ps) :: rest =>
    match parseFlagField ps "jaune_cli", parseBalConds rest with
    | some jc, some conds =>
      some ({ on_route := r, parameters := { jaune_cli := jc } } :: conds)
    | _, _ => none

/-- Validate a raw input against `BalSystem`. -/
def validateBal (raw : RawLogicalSignal) : Except ValidationError BalSystem :=
  match parseSystems raw.next_signaling_systems,
        parseFlagField raw.settings "Nf", raw.default_parameters with
  | some ns, some nf, some dp =>
    match parseFlagField dp "jaune_cli", parseBalConds raw.conditional_parameters with
    | some jc, some conds =>
      .ok { next_signaling_systems := ns, signaling_system := "BAL",
            settings := { Nf := nf }, default_parameters := { jaune_cli := jc },
            conditional_parameters := conds }
    | _, _ => .error .invalidFields
  | _, _, _ => .error .invalidFields

/-- Validate a raw input against `BaprSystem` (its `Parameters` model
is empty, so any parameter object passes; the default parameter set
comes from the `parameters` field). -/
def validateBapr (raw : RawLogicalSignal) : Except ValidationError BaprSystem :=
  match parseSystems raw.next_signaling_systems,
        parseFlagField raw.settings "Nf",
        parseFlagField raw.settings "distant", raw.parameters with
  | some ns, some nf, some dist, some _ =>
    .ok { next_signaling_systems := ns, signaling_system := "BAPR",
          settings := { Nf := nf, distant := dist }, parameters := {},
          conditional_parameters :=
            raw.conditional_parameters.map
              (fun p => { on_route := p.1, parameters := {} }) }
  | _, _, _, _ => .error .invalidFields

/-- Validate a raw input against `Tvm300System`. -/
def validateTvm300 (raw : RawLogicalSignal) : Except ValidationError Tvm300System :=
  match parseSystems raw.next_signaling_systems,
        parseFlagField raw.settings "Nf", raw.default_parameters with
  | some ns, some nf, some _ =>
    .ok { next_signaling_systems := ns, signaling_system := "TVM300",
          settings := { Nf := nf }, default_parameters := {},
          conditional_parameters :=
            raw.conditional_parameters.map
              (fun p => { on_route := p.1, parameters := {} }) }
  | _, _, _ => .error .invalidFields

/-- Validate a raw input against `Tvm430System`. -/
def validateTvm430 (raw : RawLogicalSignal) : Except ValidationError Tvm430System :=
  match parseSystems raw.next_signaling_systems,
        parseFlagField raw.settings "Nf", raw.default_parameters with
  | some ns, some nf, some _ =>
    .ok { next_signaling_systems := ns, signaling_system := "TVM430",
          settings := { Nf := nf }, default_parameters := {},
          conditional_parameters :=
            raw.conditional_parameters.map
              (fun p => { on_route := p.1, parameters := {} }) }
  | _, _, _ => .error .invalidFields

/-- Validate a raw input against `EtcsLevel2System`. -/
def validateEtcsLevel2 (raw : RawLogicalSignal) :
    Except ValidationError EtcsLevel2System :=
  match parseSystems raw.next_signaling_systems,
        parseFlagField raw.settings "Nf", raw.default_parameters with
  | some ns, some nf, some _ =>
    .ok { next_signaling_systems := ns, signaling_system := "ETCS_LEVEL2",
          settings := { Nf := nf }, default_parameters := {},
          conditional_parameters :=
            raw.conditional_parameters.map
              (fun p => { on_route := p.1, parameters := {} }) }
  | _, _, _ => .error .invalidFields

/-- Construction-time validation of `LimitedLogicalSignal`: the
discriminated union dispatches on the `signaling_system` tag; a tag
naming none of the five supported kinds is rejected. -/
def validateLimitedLogicalSignal (raw : RawLogicalSignal) :
    Except ValidationError LimitedLogicalSignal :=
  match raw.signaling_system with
  | none => .error .missingDiscriminator
  | some tag =>
    if tag = "BAL" then (validateBal raw).map .bal
    else if tag = "BAPR" then (validateBapr raw).map .bapr
    else if tag = "TVM300" then (validateTvm300 raw).map .tvm300
    else if tag = "TVM430" then (validateTvm430 raw).map .tvm430
    else if tag = "ETCS_LEVEL2" then (validateEtcsLevel2 raw).map .etcsLevel2
    else .error .unknownVariant

theorem validateBal_tag {raw : RawLogicalSignal} {b : BalSystem}
    (h : validateBal raw = .ok b) : b.signaling_system = "BAL" := by
  unfold validateBal at h
  repeat' split at h
  any_goals exact Except.noConfusion h
  injection h with h
  subst h
  rfl

theorem validateBapr_tag {raw : RawLogicalSignal} {b : BaprSystem}
    (h : validateBapr raw = .ok b) : b.signaling_system = "BAPR" := by
  unfold validateBapr at h
  repeat' split at h
  any_goals exact Except.noConfusion h
  injection h with h
  subst h
  rfl

theorem validateTvm300_tag {raw : RawLogicalSignal} {b : Tvm300System}
    (h : validateTvm300 raw = .ok b) : b.signaling_system = "TVM300" := by
  unfold validateTvm300 at h
  repeat' split at h
  any_goals exact Except.noConfusion h
  injection h with h
  subst h
  rfl

theorem validateTvm430_tag {raw : RawLogicalSignal} {b : Tvm430System}
    (h : validateTvm430 raw = .ok b) : b.signaling_system = "TVM430" := by
  unfold validateTvm430 at h
  repeat' split at h
  any_goals exact Except.noConfusion h
  injection h with h
  subst h
  rfl

theorem validateEtcsLevel2_tag {raw : RawLogicalSignal} {b : EtcsLevel2System}
    (h : validateEtcsLevel2 raw = .ok b) : b.signaling_system = "ETCS_LEVEL2" := by
  unfold validateEtcsLevel2 at h
  repeat' split at h
  any_goals exact Except.noConfusion h
  injection h with h
  subst h
  rfl

/-! ### Topology assembler and document encoder

Modelled from the spec: the `InfraBuilder` assembler, the track/endpoint
handles, the attached-object records and the `build()` encoder are not
among the sources (only their callers, the infra scripts, are); they are
modelled from the specification (§3, §4.2, §4.4, §7): builder-owned
entity lists in attachment order, per-kind default-label counters,
`build()` validating identifier uniqueness, endpoint consumption and
offset bounds, and emitting detectors and signals stably sorted by
ascending offset. -/

/-- An extremity of a track section. -/
inductive Extremity where
  | BEGIN
  | END
deriving DecidableEq, Repr

/-- Modelled from the spec: an endpoint handle, a `(track, extremity)`
lookup key. -/
structure TrackEndpoint where
  track : String
  extremity : Extremity
deriving DecidableEq, Repr

/-- The `begin()` endpoint handle of a track. -/
def TrackSection.begin (t : TrackSection) : TrackEndpoint :=
  { track := t.label, extremity := .BEGIN }

/-- The `end()` endpoint handle of a track. -/
def TrackSection.«end» (t : TrackSection) : TrackEndpoint :=
  { track := t.label, extremity := .END }

/-- Modelled from the spec: a positioned detector. -/
structure Detector where
  label : String
  track : String
  position : Int
deriving DecidableEq, Repr

/-- Modelled from the spec: a logical signal attached through
`add_logical_signal(system, settings)`. -/
structure LogicalSignal where
  signaling_system : String
  settings : List (String × String)
deriving DecidableEq, Repr

/-- Modelled from the spec: a positioned, directional signal carrying
its logical signals. -/
structure Signal where
  label : String
  track : String
  position : Int
  direction : ApplicableDirection
  is_route_delimiter : Bool
  logical_signals : List LogicalSignal
deriving DecidableEq, Repr

/-- Modelled from the spec: a switch, its ports bound to endpoints. -/
structure Switch where
  label : String
  ports : List TrackEndpoint
deriving DecidableEq, Repr

/-- Modelled from the spec: a buffer stop (a representative attached
object kind with no ordering requirement at `build()` time). -/
structure BufferStop where
  label : String
  track : String
  position : Int
deriving DecidableEq, Repr

/-- Modelled from the spec: the mutable construction context, owning
its entity lists in attachment order and its per-kind default-label
counters. -/
structure InfraBuilder where
  tracks : List TrackSection := []
  links : List (TrackEndpoint × TrackEndpoint) := []
  switches : List Switch := []
  detectors : List Detector := []
  signals : List Signal := []
  buffer_stops : List BufferStop := []
  speed_sections : List SpeedSection := []
  track_counter : Nat := 0
  detector_counter : Nat := 0
  signal_counter : Nat := 0
  switch_counter : Nat := 0
deriving Repr

/-- A fresh builder. -/
def InfraBuilder.init : InfraBuilder := {}

/-- `add_track_section(length, label?)`. -/
def InfraBuilder.add_track_section (b : InfraBuilder) (length : Int)
    (labelArg : Option String) : TrackSection × InfraBuilder :=
  let p := match labelArg with
    | some l => (l, b.track_counter)
    | none => ("track_section." ++ Nat.repr b.track_counter, b.track_counter + 1)
  let t : TrackSection := { label := p.1, length := length }
  (t, { b with tracks := b.tracks ++ [t], track_counter := p.2 })

/-- `add_link(a, b)`. -/
def InfraBuilder.add_link (b : InfraBuilder) (a c : TrackEndpoint) : InfraBuilder :=
  { b with links := b.links ++ [(a, c)] }

/-- `add_point_switch(base, left, right, label?)`. -/
def InfraBuilder.add_point_switch (b : InfraBuilder)
    (base left right : TrackEndpoint) (labelArg : Option String) : InfraBuilder :=
  let p := match labelArg with
    | some l => (l, b.switch_counter)
    | none => ("switch." ++ Nat.repr b.switch_counter, b.switch_counter + 1)
  { b with switches := b.switches ++ [{ label := p.1, ports := [base, left, right] }],
           switch_counter := p.2 }

/-- `track.add_detector(position)`. -/
def InfraBuilder.add_detector (b : InfraBuilder) (t : TrackSection)
    (position : Int) : Detector × InfraBuilder :=
  let d : Detector := { label := "detector." ++ Nat.repr b.detector_counter,
                        track := t.label, position := position }
  (d, { b with detectors := b.detectors ++ [d],
               detector_counter := b.detector_counter + 1 })

/-- `track.add_signal(position, direction, is_route_delimiter)`;
returns the handle (index) of the new signal. -/
def InfraBuilder.add_signal (b : InfraBuilder) (t : TrackSection)
    (position : Int) (dir : ApplicableDirection) (rd : Bool) :
    Nat × InfraBuilder :=
  let s : Signal := { label := "signal." ++ Nat.repr b.signal_counter,
                      track := t.label, position := position, direction := dir,
                      is_route_delimiter := rd, logical_signals := [] }
  (b.signals.length,
   { b with signals := b.signals ++ [s], signal_counter := b.signal_counter + 1 })

/-- `signal.add_logical_signal(system, settings)`. -/
def InfraBuilder.add_logical_signal (b : InfraBuilder) (i : Nat)
    (sys : String) (settings : List (String × String)) : InfraBuilder :=
  match b.signals[i]? with
  | some s =>
    let s2 := { s with logical_signals := s.logical_signals ++ [⟨sys, settings⟩] }
    { b with signals := b.signals.set i s2 }
  | none => b

/-- `add_speed_section(speed_limit, label?)`: creates the entity through
the `SpeedSection` dataclass constructor (so the default label comes
from the class-level counter in the process state) and registers it. -/
def InfraBuilder.add_speed_section (b : InfraBuilder) (st : PyState)
    (speed_limit : Rat) (labelArg : Option String) :
    SpeedSection × InfraBuilder × PyState :=
  let p := SpeedSection.make st speed_limit none none labelArg none
  (p.1, { b with speed_sections := b.speed_sections ++ [p.1] }, p.2)

/-- All endpoints of the builder's tracks. -/
def InfraBuilder.allEndpoints (b : InfraBuilder) : List TrackEndpoint :=
  b.tracks.flatMap (fun t => [t.begin, t.«end»])

/-- Every endpoint consumption by a link or a switch port. -/
def InfraBuilder.consumedEndpoints (b : InfraBuilder) : List TrackEndpoint :=
  b.links.flatMap (fun p => [p.1, p.2]) ++ b.switches.flatMap Switch.ports

/-- The global invariants validated by `build()` (§4.2, §7):
identifier uniqueness per kind, no endpoint consumed twice, consumed
endpoints exist, and positioned objects within `[0, track.length]`. -/
def InfraBuilder.Valid (b : InfraBuilder) : Prop :=
  (b.tracks.map TrackSection.label).Nodup
  ∧ (b.detectors.map Detector.label).Nodup
  ∧ (b.signals.map Signal.label).Nodup
  ∧ (b.switches.map Switch.label).Nodup
  ∧ b.consumedEndpoints.Nodup
  ∧ (∀ e ∈ b.consumedEndpoints, e ∈ b.allEndpoints)
  ∧ (∀ d ∈ b.detectors, ∃ t ∈ b.tracks,
      d.track = t.label ∧ 0 ≤ d.position ∧ d.position ≤ t.length)
  ∧ (∀ s ∈ b.signals, ∃ t ∈ b.tracks,
      s.track = t.label ∧ 0 ≤ s.position ∧ s.position ≤ t.length)

instance (b : InfraBuilder) : Decidable b.Valid := by
  unfold InfraBuilder.Valid
  infer_instance

/-- `build()` failures. -/
inductive BuildError where
  | invalidInfra
deriving DecidableEq, Repr

/-- The canonical document: one collection per entity kind. -/
structure Document where
  track_sections : List TrackSection
  links : List (TrackEndpoint × TrackEndpoint)
  switches : List Switch
  detectors : List Detector
  signals : List Signal
  buffer_stops : List BufferStop
deriving DecidableEq, Repr

/-- Offset order on detectors. -/
def detLE (a b : Detector) : Prop := a.position ≤ b.position

instance : DecidableRel detLE :=
  fun a b => inferInstanceAs (Decidable (a.position ≤ b.position))

instance : IsTotal Detector detLE := ⟨fun a b => Int.le_total a.position b.position⟩

instance : IsTrans Detector detLE := ⟨fun _ _ _ h1 h2 => le_trans h1 h2⟩

/-- Offset order on signals. -/
def sigLE (a b : Signal) : Prop := a.position ≤ b.position

instance : DecidableRel sigLE :=
  fun a b => inferInstanceAs (Decidable (a.position ≤ b.position))

instance : IsTotal Signal sigLE := ⟨fun a b => Int.le_total a.position b.position⟩

instance : IsTrans Signal sigLE := ⟨fun _ _ _ h1 h2 => le_trans h1 h2⟩

/-- The encoder: attachment order everywhere, except detectors and
signals, stably sorted by ascending offset (`List.insertionSort` is the
stable sort: an element is inserted before the first element it is
`≤`-related to, hence after every earlier element of equal offset). -/
def InfraBuilder.emit (b : InfraBuilder) : Document :=
  { track_sections := b.tracks, links := b.links, switches := b.switches,
    detectors := List.insertionSort detLE b.detectors,
    signals := List.insertionSort sigLE b.signals,
    buffer_stops := b.buffer_stops }

/-- `build()`: validate the whole graph, then emit; fails atomically. -/
def InfraBuilder.build (b : InfraBuilder) : Except BuildError Document :=
  if b.Valid then .ok b.emit else .error .invalidInfra

/-- All endpoints of a document's tracks. -/
def Document.allEndpoints (d : Document) : List TrackEndpoint :=
  d.track_sections.flatMap (fun t => [t.begin, t.«end»])

/-- Every endpoint consumption recorded in a document. -/
def Document.consumedEndpoints (d : Document) : List TrackEndpoint :=
  d.links.flatMap (fun p => [p.1, p.2]) ++ d.switches.flatMap Switch.ports

/-- The endpoints no link or switch port consumes. -/
def Document.danglingEndpoints (d : Document) : List TrackEndpoint :=
  d.allEndpoints.filter (fun e => decide (e ∉ d.consumedEndpoints))

/-! ### Embedded construction scripts -/

/-- The construction script of `tests/infra-scripts/circle_infra.py`:
4 tracks of length 200, one link `track_d.end() → track_a.begin()`, a
point switch on `track_a.end(), track_b.begin(), track_c.begin()` and a
point switch on `track_d.begin(), track_b.end(), track_c.end()`. -/
def circleInfraBuilder : InfraBuilder :=
  let pa := InfraBuilder.init.add_track_section 200 (some "track_a")
  let pb := pa.2.add_track_section 200 (some "track_b")
  let pc := pb.2.add_track_section 200 (some "track_c")
  let pd := pc.2.add_track_section 200 (some "track_d")
  let b1 := pd.2.add_link (pd.1.«end») (pa.1.begin)
  let b2 := b1.add_point_switch (pa.1.«end») (pb.1.begin) (pc.1.begin) (some "switch1")
  b2.add_point_switch (pd.1.begin) (pb.1.«end») (pc.1.«end») (some "switch2")

/-- One track's worth of `one_line.py` objects: one detector at offset
500 and two route-delimiter BAL signals (`Nf=true`) at the detector's
position, one per direction. -/
def oneLineTrackObjects (t : TrackSection) (b : InfraBuilder) : InfraBuilder :=
  let p := b.add_detector t 500
  let q := p.2.add_signal t p.1.position .START_TO_STOP Bool.true
  let b2 := q.2.add_logical_signal q.1 "BAL" [("Nf", "true")]
  let q2 := b2.add_signal t p.1.position .STOP_TO_START Bool.true
  q2.2.add_logical_signal q2.1 "BAL" [("Nf", "true")]

/-- `[builder.add_track_section(length=1000) for _ in range(n)]`. -/
def oneLineAddTracks : Nat → InfraBuilder → List TrackSection × InfraBuilder
  | 0, b => ([], b)
  | n + 1, b =>
    let p := b.add_track_section 1000 none
    let q := oneLineAddTracks n p.2
    (p.1 :: q.1, q.2)

/-- The pairwise chain links of `one_line.py`, with the alternating
orientation: odd-indexed tracks are inverted, so the first endpoint is
`begin()` of an inverted first track (else `end()`), and the second is
`end()` of an inverted second track (else `begin()`). -/
def oneLineAddLinks : List (Nat × TrackSection) → InfraBuilder → InfraBuilder
  | (i, t1) :: (j, t2) :: rest, b =>
    let firstEp := if i % 2 = 1 then t1.begin else t1.«end»
    let secondEp := if j % 2 = 1 then t2.«end» else t2.begin
    oneLineAddLinks ((j, t2) :: rest) (b.add_link firstEp secondEp)
  | _, b => b

/-- Attach each track's detector and signals, in track order. -/
def oneLineAddObjects : List TrackSection → InfraBuilder → InfraBuilder
  | [], b => b
  | t :: rest, b => oneLineAddObjects rest (oneLineTrackObjects t b)

/-- The construction script of `tests/infra-scripts/one_line.py`. -/
def oneLineBuilder : InfraBuilder :=
  let p := oneLineAddTracks 10 InfraBuilder.init
  let b := oneLineAddLinks p.1.enum p.2
  oneLineAddObjects p.1 b

instance exceptDecEq {ε α : Type} [DecidableEq ε] [DecidableEq α] :
    DecidableEq (Except ε α) := fun a b =>
  match a, b with
  | .error e, .error f =>
    if h : e = f then .isTrue (by rw [h])
    else .isFalse (by intro hc; cases hc; exact h rfl)
  | .ok x, .ok y =>
    if h : x = y then .isTrue (by rw [h])
    else .isFalse (by intro hc; cases hc; exact h rfl)
  | .error _, .ok _ => .isFalse (by intro hc; cases hc)
  | .ok _, .error _ => .isFalse (by intro hc; cases hc)

/-! ### Helper lemmas -/

theorem getD_concat_self {α : Type} (l : List α) (a d : α) :
    (l ++ [a]).getD l.length d = a := by
  simp [List.getD, List.getElem?_concat_length]

theorem getD_append_lt {α : Type} (l l2 : List α) (d : α) {i : Nat}
    (h : i < l.length) : (l ++ l2).getD i d = l.getD i d := by
  simp [List.getD, List.getElem?_append, h]

theorem getD_set_ne {α : Type} (l : List α) (v d : α) {i j : Nat} (h : i ≠ j) :
    (l.set i v).getD j d = l.getD j d := by
  simp [List.getD, List.getElem?_set_ne h]

theorem getD_set_self {α : Type} (l : List α) (v d : α) {i : Nat}
    (h : i < l.length) : (l.set i v).getD i d = v := by
  simp [List.getD, List.getElem?_set_self h]

/-- `label_prefix ++ Nat.repr ·` is injective. -/
theorem speed_section_label_injective :
    Function.Injective (fun i => "speed_section." ++ Nat.repr i) := by
  intro a b h
  exact repr_injective (string_append_left_cancel h)

/-! ### Claim theorems -/

/-- C9: `make_geo_lines(points)` returns a mapping with exactly the one
key `"geo"`, bound to a `LineString` whose coordinate sequence is
`points` itself: no vertex is added, removed, reordered, modified or
interpolated. -/
theorem make_geo_lines_exact {α : Type} [DecidableEq α] (points : List α)
    (hvalid : 2 ≤ points.length) :
    (make_geo_lines points).map Prod.fst = ["geo"]
    ∧ List.lookup "geo" (make_geo_lines points) = some (make_geo_line points)
    ∧ (make_geo_line points).coordinates = points := by
  refine ⟨rfl, ?_, rfl⟩
  simp [make_geo_lines, List.lookup]

/-- Witness for C9 at a concrete two-point coordinate sequence. -/
theorem make_geo_lines_exact_witness :
    (make_geo_lines [(0 : Int), 1]).map Prod.fst = ["geo"]
    ∧ List.lookup "geo" (make_geo_lines [(0 : Int), 1])
        = some (make_geo_line [(0 : Int), 1])
    ∧ (make_geo_line [(0 : Int), 1]).coordinates = [(0 : Int), 1] :=
  make_geo_lines_exact [(0 : Int), 1] (by decide)

/-- C10: the five variant schemas are not field-uniform: `BaprSystem`
carries its default parameter set in a field named `parameters` and has
no `default_parameters` field, while the other four variants use
`default_parameters`; in all five, `signaling_system` defaults to the
variant's own kind name and `conditional_parameters` defaults to `[]`. -/
theorem variant_field_shapes :
    ("parameters" ∈ BaprSystem.fieldNames
      ∧ "default_parameters" ∉ BaprSystem.fieldNames)
    ∧ ("default_parameters" ∈ BalSystem.fieldNames
      ∧ "parameters" ∉ BalSystem.fieldNames)
    ∧ ("default_parameters" ∈ Tvm300System.fieldNames
      ∧ "parameters" ∉ Tvm300System.fieldNames)
    ∧ ("default_parameters" ∈ Tvm430System.fieldNames
      ∧ "parameters" ∉ Tvm430System.fieldNames)
    ∧ ("default_parameters" ∈ EtcsLevel2System.fieldNames
      ∧ "parameters" ∉ EtcsLevel2System.fieldNames)
    ∧ (∀ (s : BalSystem.Settings) (p : BalSystem.Parameters),
        ({ settings := s, default_parameters := p } : BalSystem).signaling_system = "BAL"
        ∧ ({ settings := s, default_parameters := p } : BalSystem).conditional_parameters = [])
    ∧ (∀ (s : BaprSystem.Settings) (p : BaprSystem.Parameters),
        ({ settings := s, parameters := p } : BaprSystem).signaling_system = "BAPR"
        ∧ ({ settings := s, parameters := p } : BaprSystem).conditional_parameters = [])
    ∧ (∀ (s : Tvm300System.Settings) (p : Tvm300System.Parameters),
        ({ settings := s, default_parameters := p } : Tvm300System).signaling_system = "TVM300"
        ∧ ({ settings := s, default_parameters := p } : Tvm300System).conditional_parameters = [])
    ∧ (∀ (s : Tvm430System.Settings) (p : Tvm430System.Parameters),
        ({ settings := s, default_parameters := p } : Tvm430System).signaling_system = "TVM430"
        ∧ ({ settings := s, default_parameters := p } : Tvm430System).conditional_parameters = [])
    ∧ (∀ (s : EtcsLevel2System.Settings) (p : EtcsLevel2System.Parameters),
        ({ settings := s, default_parameters := p } : EtcsLevel2System).signaling_system = "ETCS_LEVEL2"
        ∧ ({ settings := s, default_parameters := p } : EtcsLevel2System).conditional_parameters = []) := by
  exact ⟨by decide, by decide, by decide, by decide, by decide,
    fun s p => ⟨rfl, rfl⟩, fun s p => ⟨rfl, rfl⟩, fun s p => ⟨rfl, rfl⟩,
    fun s p => ⟨rfl, rfl⟩, fun s p => ⟨rfl, rfl⟩⟩

/-- Counterexample to C1: with the process counter reset, builder A
creates one default-labelled speed section; then a completely fresh
builder B creates its first default-labelled speed section and receives
`"speed_section.1"`, not `"speed_section.0"`: the allocator is the
class-level counter shared by every builder in the process. -/
theorem speed_section_counter_shared_counterexample :
    (let stepA := InfraBuilder.init.add_speed_section
        (SpeedSection.reset_index PyState.init) 30 none
     let stepB := InfraBuilder.init.add_speed_section stepA.2.2 30 none
     stepA.1.label = "speed_section.0"
     ∧ stepB.1.label = "speed_section.1"
     ∧ stepB.1.label ≠ "speed_section.0") := by
  decide

/-- C1 amended: the default speed-section label is determined by the
process-wide class counter alone — whichever builder instance performs
the allocation, the label is `"speed_section.<index>"` for the current
process counter value, and the allocation advances that shared counter. -/
theorem speed_section_default_label_process_global (b : InfraBuilder)
    (st : PyState) (sl : Rat) :
    (b.add_speed_section st sl none).1.label = "speed_section." ++ Nat.repr st.index
    ∧ (b.add_speed_section st sl none).2.2.index = st.index + 1 :=
  ⟨rfl, rfl⟩

/-- A run of `k` speed-section creations without explicit labels,
returning the auto-generated labels in creation order. -/
def defaultLabelRun (st : PyState) : Nat → List String
  | 0 => []
  | k + 1 =>
    let p := SpeedSection.make st 30 none none none none
    p.1.label :: defaultLabelRun p.2 k

theorem defaultLabelRun_eq (k : Nat) : ∀ st : PyState,
    defaultLabelRun st k
      = (List.range k).map (fun i => "speed_section." ++ Nat.repr (st.index + i)) := by
  induction k with
  | zero => intro st; rfl
  | succ k ih =>
    intro st
    have hlab : (SpeedSection.make st 30 none none none none).1.label
        = "speed_section." ++ Nat.repr st.index := rfl
    have hstep : (SpeedSection.make st 30 none none none none).2.index
        = st.index + 1 := rfl
    simp only [defaultLabelRun, hlab, ih, hstep, List.range_succ_eq_map,
      List.map_cons, List.map_map, Nat.add_zero]
    congr 1
    apply List.map_congr_left
    intro i _
    have harg : st.index + 1 + i = st.index + (i + 1) := by omega
    simp [Function.comp, harg]

/-- C2: `reset_index` sets the counter back to 0, and from any reset
state a run of `k` default-labelled creations yields exactly
`"speed_section.0" … "speed_section.<k-1>"` in order; the labels are
pairwise distinct, and two runs from any two reset states agree. -/
theorem reset_then_run_deterministic (st st' : PyState) (k : Nat) :
    (SpeedSection.reset_index st).index = 0
    ∧ defaultLabelRun (SpeedSection.reset_index st) k
        = (List.range k).map (fun i => "speed_section." ++ Nat.repr i)
    ∧ (defaultLabelRun (SpeedSection.reset_index st) k).Nodup
    ∧ defaultLabelRun (SpeedSection.reset_index st) k
        = defaultLabelRun (SpeedSection.reset_index st') k := by
  have h1 : ∀ s : PyState, defaultLabelRun (SpeedSection.reset_index s) k
      = (List.range k).map (fun i => "speed_section." ++ Nat.repr i) := by
    intro s
    rw [defaultLabelRun_eq]
    simp [SpeedSection.reset_index]
  refine ⟨rfl, h1 st, ?_, by rw [h1, h1]⟩
  rw [h1]
  exact (List.nodup_range k).map speed_section_label_injective

/-- The short track used to refute C3. -/
def c3Track : TrackSection := { label := "t", length := 1 }

/-- Counterexample to C3: registering the range `[5, 2]` — whose end
precedes its begin and whose bounds exceed the owning track's length
1 — on a speed section does not fail: `add_track_range` raises nothing
and the invalid range is recorded in the section's `track_ranges`. -/
theorem add_track_range_no_validation_counterexample :
    (let p := SpeedSection.make PyState.init 30 none none (some "s") none
     let st2 := p.1.add_track_range p.2 c3Track 5 2 .BOTH
     st2.listGet p.1.track_ranges
       = [{ «begin» := 5, «end» := 2, track := c3Track,
            applicable_directions := .BOTH }]
     ∧ (2 : Int) < 5 ∧ c3Track.length < 5) := by
  decide

/-- C3 amended: `SpeedSection.add_track_range` performs no validation
against the owning track's length and cannot fail: for every bounds —
also when `end < begin` or outside `[0, track.length]` — it
unconditionally appends the given range to the section's ranges. -/
theorem add_track_range_appends_unconditionally (self : SpeedSection)
    (st : PyState) (track : TrackSection) (b e : Int)
    (dirs : ApplicableDirection)
    (href : self.track_ranges < st.listCells.length) :
    (self.add_track_range st track b e dirs).listGet self.track_ranges
      = st.listGet self.track_ranges
        ++ [{ «begin» := b, «end» := e, track := track,
              applicable_directions := dirs }] := by
  unfold SpeedSection.add_track_range
  show (st.listSet _ _).listGet _ = _
  unfold PyState.listSet PyState.listGet
  exact getD_set_self _ _ _ (by simpa using href)

/-- The concrete section and state witnessing C3's amended theorem. -/
def c3Section : SpeedSection :=
  { speed_limit := 30, speed_limit_by_tag := 0, track_ranges := 0,
    label := "s", on_routes := none }

/-- A one-cell heap holding `c3Section`'s (empty) range list. -/
def c3State : PyState := { index := 0, listCells := [[]], dictCells := [[]] }

/-- Witness for C3's amended theorem at a concrete out-of-bounds range. -/
theorem add_track_range_appends_unconditionally_witness :
    (c3Section.add_track_range c3State c3Track 5 2 .BOTH).listGet
        c3Section.track_ranges
      = c3State.listGet c3Section.track_ranges
        ++ [{ «begin» := 5, «end» := 2, track := c3Track,
              applicable_directions := .BOTH }] :=
  add_track_range_appends_unconditionally c3Section c3State c3Track 5 2 .BOTH
    (by decide)

/-- Component equations of the dataclass constructor when both container
arguments are omitted: the references are fresh (one past each heap) and
each heap grows by one empty cell, whatever the label argument. -/
theorem make_default_refs (st : PyState) (sl : Rat) (lab : Option String)
    (orr : Option (List String)) :
    (SpeedSection.make st sl none none lab orr).1.speed_limit_by_tag
        = st.dictCells.length
    ∧ (SpeedSection.make st sl none none lab orr).1.track_ranges
        = st.listCells.length
    ∧ (SpeedSection.make st sl none none lab orr).2.listCells
        = st.listCells ++ [[]]
    ∧ (SpeedSection.make st sl none none lab orr).2.dictCells
        = st.dictCells ++ [[]] := by
  cases lab <;> exact ⟨rfl, rfl, rfl, rfl⟩

/-- C8: two speed sections created without explicit
`speed_limit_by_tag`/`track_ranges` arguments own distinct, freshly
allocated empty containers, and appending a range to the first through
`add_track_range` leaves the second section's observed containers (and
the first's tag dict, and the shared counter) unchanged. -/
theorem speed_sections_no_shared_defaults (st : PyState) (sl1 sl2 : Rat)
    (lab1 lab2 : Option String) (or1 or2 : Option (List String)) :
    (let p1 := SpeedSection.make st sl1 none none lab1 or1
     let p2 := SpeedSection.make p1.2 sl2 none none lab2 or2
     p1.1.track_ranges ≠ p2.1.track_ranges
     ∧ p1.1.speed_limit_by_tag ≠ p2.1.speed_limit_by_tag
     ∧ p2.2.listGet p1.1.track_ranges = []
     ∧ p2.2.listGet p2.1.track_ranges = []
     ∧ p2.2.dictGet p1.1.speed_limit_by_tag = []
     ∧ p2.2.dictGet p2.1.speed_limit_by_tag = []
     ∧ ∀ (track : TrackSection) (bg e : Int) (dirs : ApplicableDirection),
        (p1.1.add_track_range p2.2 track bg e dirs).listGet p2.1.track_ranges
          = p2.2.listGet p2.1.track_ranges
        ∧ (p1.1.add_track_range p2.2 track bg e dirs).dictGet
              p1.1.speed_limit_by_tag
          = p2.2.dictGet p1.1.speed_limit_by_tag
        ∧ (p1.1.add_track_range p2.2 track bg e dirs).dictGet
              p2.1.speed_limit_by_tag
          = p2.2.dictGet p2.1.speed_limit_by_tag
        ∧ (p1.1.add_track_range p2.2 track bg e dirs).index = p2.2.index) := by
  dsimp only
  obtain ⟨e1a, e1b, e1c, e1d⟩ := make_default_refs st sl1 lab1 or1
  obtain ⟨e2a, e2b, e2c, e2d⟩ :=
    make_default_refs (SpeedSection.make st sl1 none none lab1 or1).2 sl2 lab2 or2
  rw [e1c] at e2b e2c
  rw [e1d] at e2a e2d
  have hlt : st.listCells.length < (st.listCells ++ [[]]).length := by
    simp only [List.length_append, List.length_cons, List.length_nil]
    omega
  have hlt2 : st.dictCells.length < (st.dictCells ++ [[]]).length := by
    simp only [List.length_append, List.length_cons, List.length_nil]
    omega
  refine ⟨?_, ?_, ?_, ?_, ?_, ?_, ?_⟩
  · rw [e1b, e2b]
    omega
  · rw [e1a, e2a]
    omega
  · unfold PyState.listGet
    rw [e2c, e1b, getD_append_lt _ _ _ hlt]
    exact getD_concat_self _ _ _
  · unfold PyState.listGet
    rw [e2c, e2b]
    exact getD_concat_self _ _ _
  · unfold PyState.dictGet
    rw [e2d, e1a, getD_append_lt _ _ _ hlt2]
    exact getD_concat_self _ _ _
  · unfold PyState.dictGet
    rw [e2d, e2a]
    exact getD_concat_self _ _ _
  · intro track bg e dirs
    unfold SpeedSection.add_track_range PyState.listSet PyState.listGet PyState.dictGet
    refine ⟨?_, rfl, rfl, rfl⟩
    dsimp only
    rw [e1b, e2b]
    exact getD_set_ne _ _ _ (Nat.ne_of_lt hlt)

/-- C4: validating a logical signal whose `signaling_system` tag is not
one of BAL, BAPR, TVM300, TVM430, ETCS_LEVEL2 is rejected at
construction (validation) time with `unknownVariant`, and every
successfully constructed logical signal carries one of the five kinds
as its explicit discriminator. -/
theorem limitedLogicalSignal_construction_validation :
    (∀ (raw : RawLogicalSignal) (tag : String),
      raw.signaling_system = some tag → tag ∉ supportedSignalingSystems →
      validateLimitedLogicalSignal raw = .error .unknownVariant)
    ∧ (∀ (raw : RawLogicalSignal) (sig : LimitedLogicalSignal),
      validateLimitedLogicalSignal raw = .ok sig →
      sig.signalingSystem ∈ supportedSignalingSystems) := by
  constructor
  · intro raw tag htag hmem
    simp only [supportedSignalingSystems, List.mem_cons, List.not_mem_nil,
      or_false] at hmem
    push_neg at hmem
    obtain ⟨h1, h2, h3, h4, h5⟩ := hmem
    unfold validateLimitedLogicalSignal
    rw [htag]
    simp [h1, h2, h3, h4, h5]
  · intro raw sig h
    unfold validateLimitedLogicalSignal at h
    split at h
    · exact Except.noConfusion h
    · rename_i tag hEq
      by_cases hb : tag = "BAL"
      · rw [if_pos hb] at h
        cases hv : validateBal raw with
        | error e => rw [hv] at h; exact Except.noConfusion h
        | ok b =>
          rw [hv] at h
          simp only [Except.map] at h
          injection h with h
          subst h
          simp [LimitedLogicalSignal.signalingSystem, validateBal_tag hv,
            supportedSignalingSystems]
      rw [if_neg hb] at h
      by_cases hb2 : tag = "BAPR"
      · rw [if_pos hb2] at h
        cases hv : validateBapr raw with
        | error e => rw [hv] at h; exact Except.noConfusion h
        | ok b =>
          rw [hv] at h
          simp only [Except.map] at h
          injection h with h
          subst h
          simp [LimitedLogicalSignal.signalingSystem, validateBapr_tag hv,
            supportedSignalingSystems]
      rw [if_neg hb2] at h
      by_cases hb3 : tag = "TVM300"
      · rw [if_pos hb3] at h
        cases hv : validateTvm300 raw with
        | error e => rw [hv] at h; exact Except.noConfusion h
        | ok b =>
          rw [hv] at h
          simp only [Except.map] at h
          injection h with h
          subst h
          simp [LimitedLogicalSignal.signalingSystem, validateTvm300_tag hv,
            supportedSignalingSystems]
      rw [if_neg hb3] at h
      by_cases hb4 : tag = "TVM430"
      · rw [if_pos hb4] at h
        cases hv : validateTvm430 raw with
        | error e => rw [hv] at h; exact Except.noConfusion h
        | ok b =>
          rw [hv] at h
          simp only [Except.map] at h
          injection h with h
          subst h
          simp [LimitedLogicalSignal.signalingSystem, validateTvm430_tag hv,
            supportedSignalingSystems]
      rw [if_neg hb4] at h
      by_cases hb5 : tag = "ETCS_LEVEL2"
      · rw [if_pos hb5] at h
        cases hv : validateEtcsLevel2 raw with
        | error e => rw [hv] at h; exact Except.noConfusion h
        | ok b =>
          rw [hv] at h
          simp only [Except.map] at h
          injection h with h
          subst h
          simp [LimitedLogicalSignal.signalingSystem, validateEtcsLevel2_tag hv,
            supportedSignalingSystems]
      rw [if_neg hb5] at h
      exact Except.noConfusion h

/-- A raw logical signal naming an unsupported signaling-system kind. -/
def rawUnknownKind : RawLogicalSignal :=
  { signaling_system := some "ASTREE", next_signaling_systems := [],
    settings := [], default_parameters := none, parameters := none,
    conditional_parameters := [] }

/-- Witness for C4 at a concrete unsupported kind. -/
theorem limitedLogicalSignal_construction_validation_witness :
    validateLimitedLogicalSignal rawUnknownKind = .error .unknownVariant :=
  limitedLogicalSignal_construction_validation.1 rawUnknownKind "ASTREE" rfl
    (by decide)

theorem build_ok_emit {b : InfraBuilder} {doc : Document}
    (h : b.build = .ok doc) : doc = b.emit := by
  unfold InfraBuilder.build at h
  split at h
  · injection h with h
    exact h.symm
  · exact Except.noConfusion h

/-- Stability of the build-time sort: filtering by any predicate whose
holders are pairwise related is unaffected by the sort, i.e. elements
of one equivalence class keep their original relative order. -/
theorem insertionSort_filter_eq {α : Type} (r : α → α → Prop) [DecidableRel r]
    (p : α → Bool) (hp : ∀ a b, p a = Bool.true → p b = Bool.true → r a b)
    (l : List α) :
    (List.insertionSort r l).filter p = l.filter p := by
  have hpair : (l.filter p).Pairwise r := by
    apply List.pairwise_of_forall_mem_list
    intro a ha b hb
    exact hp a b (List.of_mem_filter ha) (List.of_mem_filter hb)
  have hsub : List.Sublist (l.filter p) (List.insertionSort r l) :=
    List.sublist_insertionSort hpair (List.filter_sublist l)
  have hfsub : List.Sublist (l.filter p) ((List.insertionSort r l).filter p) := by
    have h2 := List.Sublist.filter p hsub
    simpa only [List.filter_filter, Bool.and_self] using h2
  have hlen : ((List.insertionSort r l).filter p).length = (l.filter p).length :=
    (List.Perm.filter p (List.perm_insertionSort r l)).length_eq
  exact (hfsub.eq_of_length hlen.symm).symm

theorem sorted_filter_of_sorted {α : Type} {r : α → α → Prop} {l : List α}
    (h : l.Sorted r) (p : α → Bool) : (l.filter p).Sorted r :=
  List.Pairwise.sublist (List.filter_sublist l) h

/-- C5: in every document produced by `build()`, the detectors and the
signals on a given track appear sorted by ascending offset, objects at
equal offsets on the same track keep their insertion order (the
build-time ordering is a stable sort by offset), and every other
collection is serialized in attachment order. -/
theorem build_sorts_detectors_signals_stably (b : InfraBuilder)
    (doc : Document) (hdoc : b.build = .ok doc) :
    (∀ t : String,
      (doc.detectors.filter (fun d => d.track == t)).Sorted detLE
      ∧ (doc.signals.filter (fun s => s.track == t)).Sorted sigLE)
    ∧ (∀ (t : String) (k : Int),
      doc.detectors.filter (fun d => d.track == t && d.position == k)
        = b.detectors.filter (fun d => d.track == t && d.position == k)
      ∧ doc.signals.filter (fun s => s.track == t && s.position == k)
        = b.signals.filter (fun s => s.track == t && s.position == k))
    ∧ doc.track_sections = b.tracks
    ∧ doc.links = b.links
    ∧ doc.switches = b.switches
    ∧ doc.buffer_stops = b.buffer_stops := by
  have hemit := build_ok_emit hdoc
  subst hemit
  dsimp only [InfraBuilder.emit]
  refine ⟨?_, ?_, rfl, rfl, rfl, rfl⟩
  · intro t
    exact ⟨sorted_filter_of_sorted (List.sorted_insertionSort detLE b.detectors) _,
      sorted_filter_of_sorted (List.sorted_insertionSort sigLE b.signals) _⟩
  · intro t k
    constructor
    · apply insertionSort_filter_eq
      intro a c ha hc
      simp only [Bool.and_eq_true, beq_iff_eq] at ha hc
      show a.position ≤ c.position
      rw [ha.2, hc.2]
    · apply insertionSort_filter_eq
      intro a c ha hc
      simp only [Bool.and_eq_true, beq_iff_eq] at ha hc
      show a.position ≤ c.position
      rw [ha.2, hc.2]

/-- A small builder whose detectors and signals are attached out of
offset order (and two objects share an offset across kinds). -/
def c5Builder : InfraBuilder :=
  let p := InfraBuilder.init.add_track_section 100 (some "t0")
  let q1 := p.2.add_detector p.1 50
  let q2 := q1.2.add_detector p.1 10
  let r1 := q2.2.add_signal p.1 30 .START_TO_STOP Bool.false
  let r2 := r1.2.add_signal p.1 20 .START_TO_STOP Bool.false
  r2.2

/-- Witness for C5 at a concrete out-of-order builder. -/
theorem build_sorts_detectors_signals_stably_witness :
    (∀ t : String,
      (c5Builder.emit.detectors.filter (fun d => d.track == t)).Sorted detLE
      ∧ (c5Builder.emit.signals.filter (fun s => s.track == t)).Sorted sigLE)
    ∧ (∀ (t : String) (k : Int),
      c5Builder.emit.detectors.filter (fun d => d.track == t && d.position == k)
        = c5Builder.detectors.filter (fun d => d.track == t && d.position == k)
      ∧ c5Builder.emit.signals.filter (fun s => s.track == t && s.position == k)
        = c5Builder.signals.filter (fun s => s.track == t && s.position == k))
    ∧ c5Builder.emit.track_sections = c5Builder.tracks
    ∧ c5Builder.emit.links = c5Builder.links
    ∧ c5Builder.emit.switches = c5Builder.switches
    ∧ c5Builder.emit.buffer_stops = c5Builder.buffer_stops :=
  build_sorts_detectors_signals_stably c5Builder c5Builder.emit (by decide)

set_option maxRecDepth 8000 in
/-- Counterexample to C6: the `one_line.py` script attaches one
detector per track, so the built document has 10 detectors, not 20. -/
theorem one_line_detector_count_counterexample :
    (oneLineBuilder.build).map (fun d => d.detectors.length) = .ok 10
    ∧ (oneLineBuilder.build).map (fun d => d.detectors.length) ≠ .ok 20 := by
  constructor <;> decide

set_option maxRecDepth 8000 in
/-- C6 amended: scenario B (10 tracks of length 1000 linked pairwise
into a chain with alternating orientation, each track carrying its one
detector and its 2 route-delimiter BAL signals with `Nf=true` at the
detector position) builds a document with exactly 10 detectors, 20
signals, 9 links and 0 switches, and every signal's logical-signal
list contains exactly one variant, of kind BAL. -/
theorem one_line_scenario_counts :
    (oneLineBuilder.build).map
      (fun d => (d.detectors.length, d.signals.length, d.links.length,
                 d.switches.length,
                 d.signals.all (fun s =>
                   decide (s.logical_signals.map LogicalSignal.signaling_system
                     = ["BAL"]))))
      = .ok (10, 20, 9, 0, Bool.true) := by
  decide

set_option maxRecDepth 8000 in
/-- C7: scenario A (the ring: 4 tracks of length 200, one link
`D.end → A.begin`, a point switch on `A.end/B.begin/C.begin` and one on
`D.begin/B.end/C.end`) builds a document with exactly 4 track sections,
1 link, 2 switches, 8 endpoints in total, 0 dangling endpoints, and
every endpoint consumed by exactly one link or switch port. -/
theorem circle_scenario_topology :
    (circleInfraBuilder.build).map
      (fun d => (d.track_sections.length, d.links.length, d.switches.length,
                 d.allEndpoints.length, d.danglingEndpoints.length,
                 d.allEndpoints.all (fun e =>
                   decide (d.consumedEndpoints.countP
                     (fun x => decide (x = e)) = 1))))
      = .ok (4, 1, 2, 8, 0, Bool.true) := by
  decide

end RailViz
